import Mathlib

/-!
Verification of the role-assignment and message-statistics persistence layer
of the PrimoExampleBot Telegram bot (src/database/database.py), as a shallow
embedding: the SQLAlchemy-backed tables become lists of records, each database
method becomes a pure function from the database state (and, where the Python
reads the clock, an explicit `now` argument) to a result and a new state.
-/

namespace BotDB

/-- User status enumeration (`UserStatus` in database.py): active / admin / banned. -/
inductive UserStatus where
  | ACTIVE
  | ADMIN
  | BANNED
deriving DecidableEq, Repr

/-- Character regions (`RoleRegion` in database.py). Genshin Impact regions first,
then Honkai: Star Rail regions (whose Python enum member names start with HSR_). -/
inductive RoleRegion where
  | MONDSTADT
  | LIYUE
  | INAZUMA
  | SUMERU
  | FONTAINE
  | NATLAN
  | SNEZHNAYA
  | KHAENRIAH
  | GENSHIN_OTHER
  | HSR_STAR
  | HSR_GERTA
  | HSR_YARILO
  | HSR_LOFU
  | HSR_PENACONY
  | HSR_AMPHOREUS
  | HSR_HUNTER
  | HSR_KMM
  | HSR_EONS
  | HSR_FIRE_MANSION
  | HSR_LORDS
  | HSR_OTHER
  | HSR_FATE
deriving DecidableEq, Repr

/-- Model of a Python `datetime.datetime`: calendar fields plus an optional fixed
UTC offset in minutes (`tzinfo = none` models a naive datetime; `some 0` models
`timezone.utc`, the only aware zone the source ever constructs). -/
structure PyDateTime where
  year : Nat
  month : Nat
  day : Nat
  hour : Nat
  minute : Nat
  second : Nat
  microsecond : Nat
  tzinfo : Option Int
deriving DecidableEq, Repr

/-- Mixed-radix key of the date fields.  For field values in the ranges Python's
`datetime` admits (1 ≤ month ≤ 12 < 13, 1 ≤ day ≤ 31 < 32) comparing keys
coincides with Python's field-by-field lexicographic comparison of dates. -/
def dateKey (d : PyDateTime) : Nat :=
  (d.year * 13 + d.month) * 32 + d.day

/-- Mixed-radix key of the time-of-day fields (microsecond resolution). -/
def timeKey (d : PyDateTime) : Nat :=
  ((d.hour * 60 + d.minute) * 60 + d.second) * 1000000 + d.microsecond

/-- Total mixed-radix key of a datetime.  For in-range field values, comparing
keys coincides with Python's comparison of two UTC datetimes; the embedding
only ever compares UTC-normalized timestamps, mirroring the source, which
stores and compares timezone-aware UTC values only. -/
def toKey (d : PyDateTime) : Nat :=
  dateKey d * 86400000000 + timeKey d

/-- The `<=` comparison on (UTC) datetimes used by the statistics queries. -/
def dtLe (a b : PyDateTime) : Bool :=
  decide (toKey a ≤ toKey b)

/-- Gregorian leap-year rule, as Python's `calendar`/`datetime` implement it. -/
def isLeap (y : Nat) : Bool :=
  y % 4 == 0 && (y % 100 != 0 || y % 400 == 0)

/-- Number of days in month `m` of year `y` (months numbered 1..12). -/
def daysInMonth (y : Nat) (m : Nat) : Nat :=
  if m = 2 then (if isLeap y then 29 else 28)
  else if m = 4 ∨ m = 6 ∨ m = 9 ∨ m = 11 then 30
  else 31

/-- Step one day back in the proleptic Gregorian calendar, keeping the
time-of-day fields (the calendar content of Python's `dt - timedelta(days=1)`). -/
def subOneDay (d : PyDateTime) : PyDateTime :=
  if 2 ≤ d.day then { d with day := d.day - 1 }
  else if 2 ≤ d.month then
    { d with month := d.month - 1, day := daysInMonth d.year (d.month - 1) }
  else
    { d with year := d.year - 1, month := 12, day := 31 }

/-- Step `k` days back: the calendar content of `dt - timedelta(days=k)`. -/
def subDays (d : PyDateTime) : Nat → PyDateTime
  | 0 => d
  | k + 1 => subOneDay (subDays d k)

/-- Days in the months strictly before month `m` of year `y`. -/
def daysBeforeMonth (y : Nat) (m : Nat) : Nat :=
  ((List.range (m - 1)).map (fun i => daysInMonth y (i + 1))).sum

/-- Ordinal day within the year (Jan 1 is 1). -/
def dayOfYear (y m d : Nat) : Nat :=
  daysBeforeMonth y m + d

/-- Leap days occurring in years 1..n of the proleptic Gregorian calendar. -/
def leapsBefore (n : Nat) : Nat :=
  n / 4 - n / 100 + n / 400

/-- Days elapsed from 0001-01-01 to the given civil date (0001-01-01 maps to 0).
This equals Python's `date.toordinal() - 1`. -/
def daysFromCivil (y m d : Nat) : Nat :=
  365 * (y - 1) + leapsBefore (y - 1) + dayOfYear y m d - 1

/-- Python's `datetime.weekday()`: Monday is 0, Sunday is 6.  0001-01-01 of the
proleptic Gregorian calendar is a Monday, so the ordinal modulo 7 is exact. -/
def weekday (d : PyDateTime) : Nat :=
  daysFromCivil d.year d.month d.day % 7

/-- `_start_of_day` in database.py: zero the time-of-day fields
(`dt.replace(hour=0, minute=0, second=0, microsecond=0)`). -/
def start_of_day (dt : PyDateTime) : PyDateTime :=
  { dt with hour := 0, minute := 0, second := 0, microsecond := 0 }

/-- `_start_of_week_monday` in database.py:
`monday = dt - timedelta(days=dt.weekday())`, then zero the time fields. -/
def start_of_week_monday (dt : PyDateTime) : PyDateTime :=
  let monday := subDays dt (weekday dt)
  { monday with hour := 0, minute := 0, second := 0, microsecond := 0 }

/-- `_start_of_month` in database.py:
`dt.replace(day=1, hour=0, minute=0, second=0, microsecond=0)`. -/
def start_of_month (dt : PyDateTime) : PyDateTime :=
  { dt with day := 1, hour := 0, minute := 0, second := 0, microsecond := 0 }

/-- A row of the `users` table (creation/update audit timestamps omitted:
no operation under verification reads them). -/
structure User where
  id : Int
  username : Option String
  full_name : Option String
  status : UserStatus
deriving DecidableEq, Repr

/-- A row of the `user_messages` table. -/
structure UserMessage where
  user_id : Int
  message_text : String
  created_at : PyDateTime
deriving DecidableEq, Repr

/-- A row of the `roles` table. -/
structure Role where
  name : String
  region : RoleRegion
  occupied_by : Option Int
deriving DecidableEq, Repr

/-- A row of the `role_messages` table. -/
structure RoleMessage where
  game_type : String
  channel_id : Int
  message_id : Int
  message_text : String
deriving DecidableEq, Repr

/-- The whole stored state: the four tables of the schema. -/
structure DBState where
  users : List User
  messages : List UserMessage
  roles : List Role
  role_messages : List RoleMessage
deriving DecidableEq, Repr

/-- `session.get(User, user_id)`: primary-key lookup (ids are unique, so the
first match is the row). -/
def findUser (users : List User) (user_id : Int) : Option User :=
  users.find? (fun u => u.id == user_id)

/-- `select(Role).where(Role.name == role_name)` + `scalar_one_or_none()`:
lookup by the unique role name. -/
def findRole (roles : List Role) (role_name : String) : Option Role :=
  roles.find? (fun r => r.name == role_name)

/-- The occupant column of the role named `role_name`, if such a role exists. -/
def roleOccupant (s : DBState) (role_name : String) : Option (Option Int) :=
  (findRole s.roles role_name).map (fun r => r.occupied_by)

/-- Row update applied by the user-status mutators: set the status of the row
with the given id (the ORM mutates the fetched row in place; ids are unique). -/
def updUserStatus (user_id : Int) (v : UserStatus) (u : User) : User :=
  if u.id == user_id then { u with status := v } else u

/-- `BotDatabase.add_user`: idempotent registration — if the id already exists
do nothing, otherwise insert a row whose status is ADMIN when `is_admin` is
set and ACTIVE otherwise. -/
def add_user (s : DBState) (user_id : Int) (username full_name : Option String)
    (is_admin : Bool) : DBState :=
  match findUser s.users user_id with
  | some _ => s
  | none =>
    let status := if is_admin then UserStatus.ADMIN else UserStatus.ACTIVE
    { s with users := s.users ++ [⟨user_id, username, full_name, status⟩] }

/-- `BotDatabase.set_admin`: no-op if the user does not exist; otherwise set
status to ADMIN when `make_admin` and to ACTIVE otherwise. -/
def set_admin (s : DBState) (user_id : Int) (make_admin : Bool) : DBState :=
  match findUser s.users user_id with
  | none => s
  | some _ =>
    let v := if make_admin then UserStatus.ADMIN else UserStatus.ACTIVE
    { s with users := s.users.map (updUserStatus user_id v) }

/-- `BotDatabase.ban_user`: no-op if the user does not exist; otherwise set
status to BANNED. -/
def ban_user (s : DBState) (user_id : Int) : DBState :=
  match findUser s.users user_id with
  | none => s
  | some _ => { s with users := s.users.map (updUserStatus user_id UserStatus.BANNED) }

/-- `BotDatabase.unban_user`: no-op if the user does not exist; set status to
ACTIVE only when the current status is exactly BANNED. -/
def unban_user (s : DBState) (user_id : Int) : DBState :=
  match findUser s.users user_id with
  | none => s
  | some u =>
    if u.status = UserStatus.BANNED then
      { s with users := s.users.map (updUserStatus user_id UserStatus.ACTIVE) }
    else s

/-- `BotDatabase.add_message`: auto-create the user (ACTIVE, no handle, no
display name) when absent; a supplied naive timestamp gets `tzinfo=utc`
attached, a supplied aware timestamp is kept, and an absent timestamp defaults
to the current UTC instant (`now`, the clock reading, is an explicit argument
of the embedding). -/
def add_message (s : DBState) (user_id : Int) (message_text : String)
    (created_at : Option PyDateTime) (now : PyDateTime) : DBState :=
  let s1 : DBState :=
    match findUser s.users user_id with
    | some _ => s
    | none => { s with users := s.users ++ [⟨user_id, none, none, UserStatus.ACTIVE⟩] }
  let ts : PyDateTime :=
    match created_at with
    | some c => if c.tzinfo = none then { c with tzinfo := some 0 } else c
    | none => now
  { s1 with messages := s1.messages ++ [⟨user_id, message_text, ts⟩] }

/-- The `epoch_start` constant of `get_message_stats`:
`datetime(1970, 1, 1, tzinfo=timezone.utc)`. -/
def epoch_start : PyDateTime := ⟨1970, 1, 1, 0, 0, 0, 0, some 0⟩

/-- The inner `_count_from` query of `get_message_stats`: count the stored
messages of `user_id` whose `created_at` is at or after `since`. -/
def count_from (msgs : List UserMessage) (user_id : Int) (since : PyDateTime) : Nat :=
  (msgs.filter (fun m => m.user_id == user_id && dtLe since m.created_at)).length

/-- `BotDatabase.get_message_stats`: the four counts (day, week, month, total)
computed from one `now` snapshot. -/
def get_message_stats (s : DBState) (user_id : Int) (now : PyDateTime) :
    Nat × Nat × Nat × Nat :=
  (count_from s.messages user_id (start_of_day now),
   count_from s.messages user_id (start_of_week_monday now),
   count_from s.messages user_id (start_of_month now),
   count_from s.messages user_id epoch_start)

/-- `BotDatabase.init_roles`: insert every listed (name, region) pair whose
name is not already present; existing roles are untouched. -/
def init_roles (s : DBState) (roles : List (String × RoleRegion)) : DBState :=
  roles.foldl
    (fun acc nr =>
      match findRole acc.roles nr.1 with
      | some _ => acc
      | none => { acc with roles := acc.roles ++ [⟨nr.1, nr.2, none⟩] })
    s

/-- Row update applied by the assignment/release mutators: set the occupant of
the role with the given (unique) name. -/
def updRoleOcc (role_name : String) (v : Option Int) (r : Role) : Role :=
  if r.name == role_name then { r with occupied_by := v } else r

/-- `BotDatabase.assign_role` (data part; the optional board-edit side effect
goes to the external chat transport and does not change stored state): return
false without mutation when the role is missing or occupied, or the user is
missing or BANNED; otherwise set the occupant and return true. -/
def assign_role (s : DBState) (role_name : String) (user_id : Int) : Bool × DBState :=
  match findRole s.roles role_name with
  | none => (false, s)
  | some role =>
    if role.occupied_by ≠ none then (false, s)
    else
      match findUser s.users user_id with
      | none => (false, s)
      | some user =>
        if user.status = UserStatus.BANNED then (false, s)
        else
          (true, { s with roles := s.roles.map (updRoleOcc role_name (some user_id)) })

/-- `BotDatabase.release_role` (data part): return false without mutation when
the role is missing or already free; otherwise clear the occupant and return
true. -/
def release_role (s : DBState) (role_name : String) : Bool × DBState :=
  match findRole s.roles role_name with
  | none => (false, s)
  | some role =>
    if role.occupied_by = none then (false, s)
    else (true, { s with roles := s.roles.map (updRoleOcc role_name none) })

/-- The decorative marker substrings of `update_role_message`: a line
containing any of them is passed through unchanged. -/
def board_markers : List String := ["ᵎ", "СПИСОК", "Если персонажа"]

/-- Python's substring test `marker in line` (markers are nonempty, so the
occurrence count equals the number of parts of `splitOn` minus one). -/
def hasSubstr (line marker : String) : Bool :=
  (line.splitOn marker).length != 1

/-- The name-recovery step of `update_role_message`:
`line.strip().replace(checkmark, '').replace(clock, '').strip()`. -/
def strip_role_name (line : String) : String :=
  ((line.trim.replace "✅" "").replace "🕒" "").trim

/-- Lookup in the dict `{name: user_id for name, user_id in roles_status}`:
a Python dict comprehension keeps the last pair for a duplicated key. -/
def dict_get (d : List (String × Option Int)) (k : String) : Option (Option Int) :=
  d.reverse.lookup k

/-- The per-line body of the `for line in lines` loop of
`BotDatabase.update_role_message`, translated clause by clause. -/
def update_board_line (d : List (String × Option Int)) (line : String) : String :=
  if line.trim == "" || board_markers.any (fun m => hasSubstr line m) then line
  else
    let role_name := strip_role_name line
    match dict_get d role_name with
    | some (some _) => role_name ++ " ✅"
    | some none => role_name
    | none => line

/-- The accumulation loop of `update_role_message` (`updated_lines.append`). -/
def update_board_loop (d : List (String × Option Int)) :
    List String → List String → List String
  | acc, [] => acc
  | acc, line :: rest => update_board_loop d (acc ++ [update_board_line d line]) rest

/-- The pure text transformation performed by `BotDatabase.update_role_message`
on the stored board text, given the role-occupancy snapshot `d` (the result of
`get_role_status`): split on newlines, rewrite each line, join back. -/
def update_role_message_text (d : List (String × Option Int)) (text : String) : String :=
  String.intercalate "\n" (update_board_loop d [] (text.splitOn "\n"))

/-- `BotDatabase.get_role_status`: (name, occupant) for every role, ordered by
name ascending (mergeSort is stable, matching SQL order-by on the unique key). -/
def get_role_status (s : DBState) : List (String × Option Int) :=
  ((s.roles.mergeSort (fun a b => a.name ≤ b.name)).map (fun r => (r.name, r.occupied_by)))

-- ======================================================
-- Helper lemmas
-- ======================================================

/-- The status mutators update rows in place, so the id column is preserved. -/
lemma updUserStatus_id (user_id : Int) (v : UserStatus) (u : User) :
    (updUserStatus user_id v u).id = u.id := by
  unfold updUserStatus
  split <;> rfl

/-- Primary-key lookup commutes with an in-place status update. -/
lemma findUser_map_updUserStatus (l : List User) (user_id : Int) (v : UserStatus) :
    findUser (l.map (updUserStatus user_id v)) user_id =
      (findUser l user_id).map (updUserStatus user_id v) := by
  unfold findUser
  have hp : ((fun u => u.id == user_id) ∘ updUserStatus user_id v) =
      (fun u : User => u.id == user_id) := by
    funext u
    simp [Function.comp, updUserStatus_id]
  rw [List.find?_map, hp]

/-- A row found by id satisfies the id predicate, so updating it by id really
changes its status field. -/
lemma updUserStatus_of_found {l : List User} {user_id : Int} {u : User}
    (h : findUser l user_id = some u) (v : UserStatus) :
    updUserStatus user_id v u = { u with status := v } := by
  have hp := List.find?_some h
  unfold updUserStatus
  simp only [hp, if_pos]

/-- The occupancy mutators update rows in place, so the name column is preserved. -/
lemma updRoleOcc_name (role_name : String) (v : Option Int) (r : Role) :
    (updRoleOcc role_name v r).name = r.name := by
  unfold updRoleOcc
  split <;> rfl

/-- Unique-name lookup commutes with an in-place occupancy update. -/
lemma findRole_map_updRoleOcc (l : List Role) (role_name : String) (v : Option Int) :
    findRole (l.map (updRoleOcc role_name v)) role_name =
      (findRole l role_name).map (updRoleOcc role_name v) := by
  unfold findRole
  have hp : ((fun r => r.name == role_name) ∘ updRoleOcc role_name v) =
      (fun r : Role => r.name == role_name) := by
    funext r
    simp [Function.comp, updRoleOcc_name]
  rw [List.find?_map, hp]

/-- A role found by name satisfies the name predicate, so updating it by name
really changes its occupant field. -/
lemma updRoleOcc_of_found {l : List Role} {role_name : String} {r : Role}
    (h : findRole l role_name = some r) (v : Option Int) :
    updRoleOcc role_name v r = { r with occupied_by := v } := by
  have hp := List.find?_some h
  unfold updRoleOcc
  simp only [hp, if_pos]

/-- Registration is a no-op whenever the id is already present
(shared engine of the idempotence results). -/
lemma add_user_of_found {s : DBState} {user_id : Int} (h : (findUser s.users user_id).isSome)
    (username full_name : Option String) (is_admin : Bool) :
    add_user s user_id username full_name is_admin = s := by
  unfold add_user
  cases hf : findUser s.users user_id with
  | none => rw [hf] at h; simp at h
  | some u => rfl

-- ======================================================
-- Claim theorems
-- ======================================================

/-- C1: for every role name r and user id u, assign_role(r, u) returns true iff
a role named r exists with a null occupant and a user with id u exists whose
status is not BANNED; and whenever it returns true, the occupant of r
afterwards equals u. -/
theorem assign_role_success_iff (s : DBState) (r : String) (u : Int) :
    ((assign_role s r u).1 = true ↔
      ((∃ role, findRole s.roles r = some role ∧ role.occupied_by = none) ∧
       (∃ usr, findUser s.users u = some usr ∧ usr.status ≠ UserStatus.BANNED))) ∧
    ((assign_role s r u).1 = true → roleOccupant (assign_role s r u).2 r = some (some u)) := by
  cases hrole : findRole s.roles r with
  | none =>
    have he : assign_role s r u = (false, s) := by
      unfold assign_role
      rw [hrole]
    rw [he]
    refine ⟨⟨fun h => by simp at h, ?_⟩, fun h => by simp at h⟩
    rintro ⟨⟨role2, hr2, -⟩, -⟩
    exact Option.noConfusion hr2
  | some role =>
    by_cases hocc : role.occupied_by = none
    · cases huser : findUser s.users u with
      | none =>
        have he : assign_role s r u = (false, s) := by
          unfold assign_role
          rw [hrole]
          simp [hocc, huser]
        rw [he]
        refine ⟨⟨fun h => by simp at h, ?_⟩, fun h => by simp at h⟩
        rintro ⟨-, ⟨usr2, hu2, -⟩⟩
        exact Option.noConfusion hu2
      | some usr =>
        by_cases hb : usr.status = UserStatus.BANNED
        · have he : assign_role s r u = (false, s) := by
            unfold assign_role
            rw [hrole]
            simp [hocc, huser, hb]
          rw [he]
          refine ⟨⟨fun h => by simp at h, ?_⟩, fun h => by simp at h⟩
          rintro ⟨-, ⟨usr2, hu2, hb2⟩⟩
          cases hu2
          exact (hb2 hb).elim
        · have he : assign_role s r u =
              (true, { s with roles := s.roles.map (updRoleOcc r (some u)) }) := by
            unfold assign_role
            rw [hrole]
            simp [hocc, huser, hb]
          rw [he]
          refine ⟨⟨fun _ => ⟨⟨role, rfl, hocc⟩, ⟨usr, rfl, hb⟩⟩, fun _ => rfl⟩, ?_⟩
          intro _
          unfold roleOccupant
          rw [findRole_map_updRoleOcc, hrole]
          simp [updRoleOcc_of_found hrole]
    · have he : assign_role s r u = (false, s) := by
        unfold assign_role
        rw [hrole]
        simp [hocc]
      rw [he]
      refine ⟨⟨fun h => by simp at h, ?_⟩, fun h => by simp at h⟩
      rintro ⟨⟨role2, hr2, hocc2⟩, -⟩
      cases hr2
      exact (hocc hocc2).elim

/-- C3: registering an already-present user id a second time, with any handle,
display name, or admin flag, leaves the stored state (hence the record's
username, full_name and status) unchanged, and is a total function (no error). -/
theorem add_user_idempotent (s : DBState) (user_id : Int)
    (username full_name : Option String) (is_admin : Bool)
    (h : (findUser s.users user_id).isSome) :
    add_user s user_id username full_name is_admin = s :=
  add_user_of_found h username full_name is_admin

/-- C4: releasing a role that does not exist or is already free returns false
and leaves the entire stored state unchanged; the condition is reported as a
boolean, not an exception (the embedding is a total function). -/
theorem release_role_noop (s : DBState) (r : String)
    (h : findRole s.roles r = none ∨
         ∃ role, findRole s.roles r = some role ∧ role.occupied_by = none) :
    release_role s r = (false, s) := by
  unfold release_role
  rcases h with h | ⟨role, hr, hocc⟩
  · rw [h]
  · rw [hr]
    simp [hocc]

/-- Example state for concrete instantiations: one active user 42, one free
role "Albedo". -/
def exSt1 : DBState :=
  { users := [⟨42, some "neo", none, UserStatus.ACTIVE⟩],
    messages := [],
    roles := [⟨"Albedo", RoleRegion.MONDSTADT, none⟩],
    role_messages := [] }

/-- Witness for C1: in `exSt1` the assignment of the free role "Albedo" to the
active user 42 succeeds and afterwards its occupant is 42. -/
theorem assign_role_success_iff_witness :
    roleOccupant (assign_role exSt1 "Albedo" 42).2 "Albedo" = some (some 42) :=
  (assign_role_success_iff exSt1 "Albedo" 42).2 (by decide)

/-- Witness for C3: re-registering user 42 with a different handle, name and
admin flag leaves the state untouched. -/
theorem add_user_idempotent_witness :
    add_user exSt1 42 (some "other") (some "Other Name") true = exSt1 :=
  add_user_idempotent exSt1 42 (some "other") (some "Other Name") true (by decide)

/-- Witness for C4: releasing the unknown role "Zhongli" returns false and
leaves the state untouched. -/
theorem release_role_noop_witness :
    release_role exSt1 "Zhongli" = (false, exSt1) :=
  release_role_noop exSt1 "Zhongli" (Or.inl (by decide))

/-- C5: unban_user changes the stored state only when the user exists and is
exactly BANNED (then the status becomes ACTIVE); for a missing user and for
any non-BANNED status (ADMIN included) it is a silent no-op. -/
theorem unban_user_spec (s : DBState) (user_id : Int) :
    (findUser s.users user_id = none → unban_user s user_id = s) ∧
    (∀ u, findUser s.users user_id = some u → u.status ≠ UserStatus.BANNED →
      unban_user s user_id = s) ∧
    (∀ u, findUser s.users user_id = some u → u.status = UserStatus.BANNED →
      findUser (unban_user s user_id).users user_id =
        some { u with status := UserStatus.ACTIVE }) := by
  refine ⟨?_, ?_, ?_⟩
  · intro h
    unfold unban_user
    rw [h]
  · intro u hu hb
    unfold unban_user
    rw [hu]
    simp [hb]
  · intro u hu hb
    unfold unban_user
    rw [hu]
    simp only [hb, if_pos]
    rw [findUser_map_updUserStatus, hu]
    simp [updUserStatus_of_found hu]

/-- Example state: one BANNED user 9. -/
def exSt2 : DBState :=
  { users := [⟨9, none, none, UserStatus.BANNED⟩],
    messages := [], roles := [], role_messages := [] }

/-- Witness for C5: unbanning the BANNED user 9 sets the status to ACTIVE. -/
theorem unban_user_spec_witness :
    findUser (unban_user exSt2 9).users 9 = some ⟨9, none, none, UserStatus.ACTIVE⟩ :=
  (unban_user_spec exSt2 9).2.2 ⟨9, none, none, UserStatus.BANNED⟩ (by decide) rfl

/-- C9: set_admin with make_admin=False sets an existing user to ACTIVE
regardless of the previous status; in particular a BANNED user is silently
unbanned by a demotion. -/
theorem set_admin_demote_to_active (s : DBState) (user_id : Int) (u : User)
    (h : findUser s.users user_id = some u) :
    findUser (set_admin s user_id false).users user_id =
      some { u with status := UserStatus.ACTIVE } := by
  unfold set_admin
  rw [h]
  simp only [Bool.false_eq_true, if_false]
  rw [findUser_map_updUserStatus, h]
  simp [updUserStatus_of_found h]

/-- Witness for C9: demoting the BANNED user 9 leaves them ACTIVE, not BANNED. -/
theorem set_admin_demote_to_active_witness :
    findUser (set_admin exSt2 9 false).users 9 = some ⟨9, none, none, UserStatus.ACTIVE⟩ :=
  set_admin_demote_to_active exSt2 9 ⟨9, none, none, UserStatus.BANNED⟩ (by decide)

/-- C6: recording a message with an explicit naive timestamp T stores T with
the UTC zone attached (same calendar fields); recording without a timestamp
stores the current UTC instant (the `now` argument of the embedding). -/
theorem add_message_timestamp (s : DBState) (user_id : Int) (text : String)
    (T now : PyDateTime) (h : T.tzinfo = none) :
    (add_message s user_id text (some T) now).messages =
      s.messages ++ [⟨user_id, text, { T with tzinfo := some 0 }⟩] ∧
    (add_message s user_id text none now).messages =
      s.messages ++ [⟨user_id, text, now⟩] := by
  constructor <;>
    (unfold add_message; cases hf : findUser s.users user_id <;> simp [hf, h])

/-- Witness for C6: a concrete naive timestamp is stored with tz = UTC, and an
absent timestamp is stored as `now`. -/
theorem add_message_timestamp_witness :
    (add_message exSt1 42 "hello" (some ⟨2024, 1, 2, 3, 4, 5, 6, none⟩)
        ⟨2026, 10, 12, 0, 0, 0, 0, some 0⟩).messages =
      exSt1.messages ++ [⟨42, "hello", ⟨2024, 1, 2, 3, 4, 5, 6, some 0⟩⟩] ∧
    (add_message exSt1 42 "hello" none ⟨2026, 10, 12, 0, 0, 0, 0, some 0⟩).messages =
      exSt1.messages ++ [⟨42, "hello", ⟨2026, 10, 12, 0, 0, 0, 0, some 0⟩⟩] :=
  add_message_timestamp exSt1 42 "hello" ⟨2024, 1, 2, 3, 4, 5, 6, none⟩
    ⟨2026, 10, 12, 0, 0, 0, 0, some 0⟩ rfl

/-- A sequence of add_user calls for one id (the "every subsequent
registration" of C10), run left to right. -/
def run_add_users (user_id : Int) : DBState → List (Option String × Option String × Bool) → DBState
  | s, [] => s
  | s, c :: rest => run_add_users user_id (add_user s user_id c.1 c.2.1 c.2.2) rest

/-- Registration never modifies a user that is already present, however long
the call sequence. -/
lemma run_add_users_found {user_id : Int} {u : User} :
    ∀ (calls : List (Option String × Option String × Bool)) (s : DBState),
      findUser s.users user_id = some u →
      findUser (run_add_users user_id s calls).users user_id = some u
  | [], _, h => h
  | c :: rest, s, h => by
    unfold run_add_users
    rw [add_user_of_found (by rw [h]; rfl) c.1 c.2.1 c.2.2]
    exact run_add_users_found rest s h

/-- C10: when add_message auto-creates a missing user, the created row has no
handle and no display name, and any later sequence of add_user calls for that
id (whatever handles or names they carry) leaves both fields None. -/
theorem add_message_autocreated_user (s : DBState) (user_id : Int) (text : String)
    (created_at : Option PyDateTime) (now : PyDateTime)
    (calls : List (Option String × Option String × Bool))
    (h : findUser s.users user_id = none) :
    findUser (add_message s user_id text created_at now).users user_id =
      some ⟨user_id, none, none, UserStatus.ACTIVE⟩ ∧
    findUser (run_add_users user_id (add_message s user_id text created_at now) calls).users
        user_id =
      some ⟨user_id, none, none, UserStatus.ACTIVE⟩ := by
  have h1 : findUser (add_message s user_id text created_at now).users user_id =
      some ⟨user_id, none, none, UserStatus.ACTIVE⟩ := by
    unfold add_message
    rw [h]
    show findUser (s.users ++ [⟨user_id, none, none, UserStatus.ACTIVE⟩]) user_id = _
    unfold findUser at h ⊢
    rw [List.find?_append, h]
    simp [List.find?]
  exact ⟨h1, run_add_users_found calls _ h1⟩

/-- Witness for C10: starting from an empty store, a message from unknown user
7 creates the bare ACTIVE row, and a later registration carrying a handle and
a display name leaves both fields None. -/
theorem add_message_autocreated_user_witness :
    findUser (add_message ⟨[], [], [], []⟩ 7 "hi" none ⟨2026, 10, 12, 0, 0, 0, 0, some 0⟩).users 7 =
      some ⟨7, none, none, UserStatus.ACTIVE⟩ ∧
    findUser (run_add_users 7 (add_message ⟨[], [], [], []⟩ 7 "hi" none
        ⟨2026, 10, 12, 0, 0, 0, 0, some 0⟩) [(some "handle", some "Display Name", true)]).users 7 =
      some ⟨7, none, none, UserStatus.ACTIVE⟩ :=
  add_message_autocreated_user ⟨[], [], [], []⟩ 7 "hi" none ⟨2026, 10, 12, 0, 0, 0, 0, some 0⟩
    [(some "handle", some "Display Name", true)] rfl

-- ======================================================
-- C7: the board-synchronizer text transformation
-- ======================================================

/-- The specification side of C7, worded as the spec describes the per-line
behaviour: a blank line passes through unchanged; a line containing a
decorative marker substring passes through unchanged; otherwise the name
obtained by stripping checkmark and clock characters and surrounding
whitespace is looked up in the snapshot — found and occupied gives the name
with a checkmark suffix, found and free gives the bare name, not found leaves
the original line. -/
def spec_board_line (d : List (String × Option Int)) (line : String) : String :=
  if line.trim = "" then line
  else if board_markers.any (fun m => hasSubstr line m) then line
  else
    match dict_get d (strip_role_name line) with
    | some (some _) => strip_role_name line ++ " ✅"
    | some none => strip_role_name line
    | none => line

/-- The loop body of the source agrees with the spec-worded per-line function. -/
lemma update_board_line_eq_spec (d : List (String × Option Int)) (line : String) :
    update_board_line d line = spec_board_line d line := by
  unfold update_board_line spec_board_line
  by_cases h1 : line.trim = ""
  · simp [h1]
  · by_cases h2 : board_markers.any (fun m => hasSubstr line m) = true
    · simp [h1, h2]
    · simp [h1, h2]

/-- The accumulation loop is the map of the loop body over the lines. -/
lemma update_board_loop_eq (d : List (String × Option Int)) :
    ∀ (lines acc : List String),
      update_board_loop d acc lines = acc ++ lines.map (update_board_line d)
  | [], acc => by simp [update_board_loop]
  | line :: rest, acc => by
    unfold update_board_loop
    rw [update_board_loop_eq d rest (acc ++ [update_board_line d line])]
    simp

/-- C7: the board synchronizer transforms the stored text line by line, each
line exactly as the specification describes (blank and marker lines pass
through; recognized names are rewritten to bare name or name + checkmark by
occupancy; unrecognized lines are never corrupted). -/
theorem update_role_message_text_spec (d : List (String × Option Int)) (text : String) :
    update_role_message_text d text =
      String.intercalate "\n" ((text.splitOn "\n").map (spec_board_line d)) := by
  unfold update_role_message_text
  rw [update_board_loop_eq]
  simp only [List.nil_append]
  congr 1
  exact List.map_congr_left (fun line _ => update_board_line_eq_spec d line)

-- ======================================================
-- C2: statistics window monotonicity
-- ======================================================

/-- Every month has at most 31 days. -/
lemma daysInMonth_le (y m : Nat) : daysInMonth y m ≤ 31 := by
  unfold daysInMonth
  split_ifs <;> omega

/-- Stepping one civil day back never increases the date key, and decreases the
year by at most one (valid from year 1 on, as in Python's calendar). -/
lemma subOneDay_dateKey (d : PyDateTime) (hy : 1 ≤ d.year) :
    dateKey (subOneDay d) ≤ dateKey d ∧ d.year ≤ (subOneDay d).year + 1 := by
  unfold subOneDay dateKey
  split_ifs with hd hm
  · dsimp only
    constructor <;> omega
  · have h31 := daysInMonth_le d.year (d.month - 1)
    dsimp only
    constructor <;> omega
  · dsimp only
    constructor <;> omega

/-- Stepping k civil days back never increases the date key, and decreases the
year by at most k. -/
lemma subDays_dateKey :
    ∀ (k : Nat) (d : PyDateTime), k + 1 ≤ d.year →
      dateKey (subDays d k) ≤ dateKey d ∧ d.year ≤ (subDays d k).year + k
  | 0, d, _ => ⟨Nat.le_refl _, Nat.le_add_right _ _⟩
  | k + 1, d, h => by
    unfold subDays
    have ih := subDays_dateKey k d (by omega)
    have h1 := subOneDay_dateKey (subDays d k) (by omega)
    exact ⟨Nat.le_trans h1.1 ih.1, by omega⟩

/-- Python's weekday is in 0..6. -/
lemma weekday_lt (d : PyDateTime) : weekday d < 7 :=
  Nat.mod_lt _ (by omega)

/-- Key of a day boundary: the date key scaled by microseconds-per-day. -/
lemma toKey_start_of_day (dt : PyDateTime) :
    toKey (start_of_day dt) = dateKey dt * 86400000000 := by
  simp [toKey, timeKey, dateKey, start_of_day]

/-- Key of the week boundary. -/
lemma toKey_start_of_week (dt : PyDateTime) :
    toKey (start_of_week_monday dt) = dateKey (subDays dt (weekday dt)) * 86400000000 := by
  simp [toKey, timeKey, dateKey, start_of_week_monday]

/-- Key of the month boundary. -/
lemma toKey_start_of_month (dt : PyDateTime) :
    toKey (start_of_month dt) = ((dt.year * 13 + dt.month) * 32 + 1) * 86400000000 := by
  simp [toKey, timeKey, dateKey, start_of_month]

/-- Key of the epoch boundary. -/
lemma toKey_epoch : toKey epoch_start = ((1970 * 13 + 1) * 32 + 1) * 86400000000 := by
  simp [toKey, timeKey, dateKey, epoch_start]

/-- Filtering with a stronger predicate keeps at most as many elements. -/
lemma length_filter_mono {α : Type} {p q : α → Bool} (l : List α)
    (h : ∀ x, p x = true → q x = true) :
    (l.filter p).length ≤ (l.filter q).length := by
  induction l with
  | nil => simp
  | cons a t ih =>
    by_cases hp : p a = true
    · have hq := h a hp
      simp only [List.filter_cons, hp, if_true, hq, List.length_cons]
      omega
    · have hp2 : p a = false := by
        revert hp
        cases p a <;> simp
      cases hq : q a <;> simp only [List.filter_cons, hp2, hq, List.length_cons] <;> simp <;> omega

/-- Counting messages from a later boundary gives at most as many. -/
lemma count_from_mono (msgs : List UserMessage) (user_id : Int) {a b : PyDateTime}
    (hab : toKey a ≤ toKey b) :
    count_from msgs user_id b ≤ count_from msgs user_id a := by
  unfold count_from
  apply length_filter_mono
  intro m hm
  simp only [Bool.and_eq_true] at hm ⊢
  refine ⟨hm.1, ?_⟩
  have h2 := hm.2
  simp only [dtLe, decide_eq_true_eq] at h2 ⊢
  omega

/-- Example state for C2: one message of user 7, sent Tuesday 2024-04-30 12:00 UTC. -/
def exC2 : DBState :=
  { users := [⟨7, none, none, UserStatus.ACTIVE⟩],
    messages := [⟨7, "hi", ⟨2024, 4, 30, 12, 0, 0, 0, some 0⟩⟩],
    roles := [], role_messages := [] }

/-- The "now" instant of the counterexample: Wednesday 2024-05-01 12:00 UTC,
whose week starts Monday 2024-04-29 — before the month start 2024-05-01. -/
def nowC2 : PyDateTime := ⟨2024, 5, 1, 12, 0, 0, 0, some 0⟩

/-- Counterexample to C2 as stated: at now = 2024-05-01 12:00 UTC with a single
message stored at 2024-04-30 12:00 UTC, the stats are (day, week, month, total)
= (0, 1, 0, 1), so week ≤ month fails. -/
theorem get_message_stats_week_gt_month :
    get_message_stats exC2 7 nowC2 = (0, 1, 0, 1) ∧
    ¬ ((get_message_stats exC2 7 nowC2).2.1 ≤ (get_message_stats exC2 7 nowC2).2.2.1) := by
  decide

/-- C2 amended: for a now instant with valid calendar fields in 1970 or later
whose week start is not before the epoch, day ≤ week, day ≤ month, week ≤
total and month ≤ total hold for any stored messages; week ≤ month, however,
can fail when the current week began in the previous month. -/
theorem get_message_stats_monotone_amended (s : DBState) (user_id : Int)
    (now : PyDateTime)
    (h1 : 1970 ≤ now.year) (h2 : 1 ≤ now.month) (h3 : 1 ≤ now.day)
    (h4 : toKey epoch_start ≤ toKey (start_of_week_monday now)) :
    (get_message_stats s user_id now).1 ≤ (get_message_stats s user_id now).2.1 ∧
    (get_message_stats s user_id now).1 ≤ (get_message_stats s user_id now).2.2.1 ∧
    (get_message_stats s user_id now).2.1 ≤ (get_message_stats s user_id now).2.2.2 ∧
    (get_message_stats s user_id now).2.2.1 ≤ (get_message_stats s user_id now).2.2.2 := by
  have hwd := weekday_lt now
  have hsub := subDays_dateKey (weekday now) now (by omega)
  have hw_d : toKey (start_of_week_monday now) ≤ toKey (start_of_day now) := by
    rw [toKey_start_of_week, toKey_start_of_day]
    exact Nat.mul_le_mul_right _ hsub.1
  have hm_d : toKey (start_of_month now) ≤ toKey (start_of_day now) := by
    rw [toKey_start_of_month, toKey_start_of_day]
    apply Nat.mul_le_mul_right
    unfold dateKey
    omega
  have he_m : toKey epoch_start ≤ toKey (start_of_month now) := by
    rw [toKey_epoch, toKey_start_of_month]
    apply Nat.mul_le_mul_right
    omega
  simp only [get_message_stats]
  exact ⟨count_from_mono s.messages user_id hw_d,
         count_from_mono s.messages user_id hm_d,
         count_from_mono s.messages user_id h4,
         count_from_mono s.messages user_id he_m⟩

/-- Witness for the amended C2: at Friday 2024-05-10 09:00 UTC (week start
Monday 2024-05-06, after the epoch) the four inequalities hold on `exC2`. -/
theorem get_message_stats_monotone_amended_witness :
    (get_message_stats exC2 7 ⟨2024, 5, 10, 9, 0, 0, 0, some 0⟩).1 ≤
        (get_message_stats exC2 7 ⟨2024, 5, 10, 9, 0, 0, 0, some 0⟩).2.1 ∧
    (get_message_stats exC2 7 ⟨2024, 5, 10, 9, 0, 0, 0, some 0⟩).1 ≤
        (get_message_stats exC2 7 ⟨2024, 5, 10, 9, 0, 0, 0, some 0⟩).2.2.1 ∧
    (get_message_stats exC2 7 ⟨2024, 5, 10, 9, 0, 0, 0, some 0⟩).2.1 ≤
        (get_message_stats exC2 7 ⟨2024, 5, 10, 9, 0, 0, 0, some 0⟩).2.2.2 ∧
    (get_message_stats exC2 7 ⟨2024, 5, 10, 9, 0, 0, 0, some 0⟩).2.2.1 ≤
        (get_message_stats exC2 7 ⟨2024, 5, 10, 9, 0, 0, 0, some 0⟩).2.2.2 :=
  get_message_stats_monotone_amended exC2 7 ⟨2024, 5, 10, 9, 0, 0, 0, some 0⟩
    (by decide) (by decide) (by decide) (by decide)

end BotDB
